import Mathlib

/-!
Verification of the clean-up-tracker backend (backend/server.js): a shallow
embedding of the waste/event write handlers, the list handlers, and the
stats aggregation fold, together with theorems settling the specification
claims about them.
-/

set_option maxHeartbeats 1000000

namespace CleanupTracker

/-- A JSON/JavaScript value as it can appear in a request body or a stored
document field.  `undef` stands for an absent field (JavaScript
`undefined`). -/
inductive JsVal where
  | undef
  | null
  | str (s : String)
  | num (n : Int)
  | bool (b : Bool)
deriving DecidableEq, Repr

/-- JavaScript truthiness of a value: `undefined`, `null`, the empty string,
`0` and `false` are falsy; everything else is truthy. -/
def JsVal.truthy : JsVal → Bool
  | .undef => false
  | .null => false
  | .str s => !(s == "")
  | .num n => !(n == 0)
  | .bool b => b

/-- JavaScript coercion of a value to an object property key (string). -/
def JsVal.toKey : JsVal → String
  | .undef => "undefined"
  | .null => "null"
  | .str s => s
  | .num n => toString n
  | .bool b => if b then "true" else "false"

/-- A JavaScript plain object used as a counter map (string keys to counts),
modelled as an insertion-ordered association list. -/
abbrev ObjMap : Type := List (String × Nat)

/-- Lookup with the JavaScript default: `m[k] || 0`. -/
def ObjMap.get (m : ObjMap) (k : String) : Nat :=
  match m with
  | [] => 0
  | (k₀, v) :: rest => if k₀ = k then v else ObjMap.get rest k

/-- The statement `m[k] = (m[k] || 0) + 1`: increment the count stored at
`k`, inserting the key with count 1 when it is absent. -/
def ObjMap.bump (m : ObjMap) (k : String) : ObjMap :=
  match m with
  | [] => [(k, 1)]
  | (k₀, v) :: rest =>
    if k₀ = k then (k₀, v + 1) :: rest else (k₀, v) :: ObjMap.bump rest k

/-- Sum of all counts stored in the map. -/
def ObjMap.sumVals (m : ObjMap) : Nat :=
  (List.map Prod.snd m).sum

/-- Whether the object has a property named `k` (the JavaScript
`k in m` test). -/
def ObjMap.hasKey (m : ObjMap) (k : String) : Bool :=
  m.any (fun p => p.1 == k)

/-- A stored waste-entry document, with the fields written by the
`POST /api/waste` handler.  Fields other than `createdAt` may hold any
JavaScript value (the store is schemaless); `undef` models a missing
field. -/
structure WasteDoc where
  type : JsVal
  volume : JsVal
  location : JsVal
  submitterId : JsVal
  submitterEmail : JsVal
  createdAt : String
deriving DecidableEq, Repr

/-- A stored event document, with the fields written by the
`POST /api/events` handler. -/
structure EventDoc where
  title : JsVal
  description : JsVal
  location : JsVal
  date : JsVal
  creatorId : JsVal
  creatorEmail : JsVal
  createdAt : String
deriving DecidableEq, Repr

/-- The summary returned by `GET /api/stats`. -/
structure StatsSummary where
  totalEntries : Nat
  totalsByType : ObjMap
  totalsByUser : ObjMap
deriving DecidableEq, Repr

/-- The grouping key used for `totalsByType`: `e.type || "Unknown"`. -/
def typeKey (e : WasteDoc) : String :=
  if e.type.truthy then e.type.toKey else "Unknown"

/-- The grouping key used for `totalsByUser`: `e.submitterId || "unknown"`. -/
def userKey (e : WasteDoc) : String :=
  if e.submitterId.truthy then e.submitterId.toKey else "unknown"

/-- The body of the `entries.forEach` loop of the `GET /api/stats`
handler. -/
def statsStep (acc : StatsSummary) (e : WasteDoc) : StatsSummary :=
  { totalEntries := acc.totalEntries + 1
    totalsByType := acc.totalsByType.bump (typeKey e)
    totalsByUser := acc.totalsByUser.bump (userKey e) }

/-- The aggregation fold of the `GET /api/stats` handler: starting from
`totalEntries = 0` and empty `totalsByType` / `totalsByUser`, run the
`forEach` body over every scanned entry. -/
def computeStats (entries : List WasteDoc) : StatsSummary :=
  entries.foldl statsStep ⟨0, ([] : ObjMap), ([] : ObjMap)⟩

/-- The `user` object of a request body (`{uid, email}`); either field may
be absent. -/
structure UserObj where
  uid : JsVal
  email : JsVal
deriving DecidableEq, Repr

/-- The optional-chaining access `user?.uid`: evaluates to `undefined` when
the `user` field itself is absent. -/
def userUid : Option UserObj → JsVal
  | none => .undef
  | some u => u.uid

/-- The optional-chaining style access to `user.email` (evaluated only on
the authorized path, where `user` is an object). -/
def userEmail : Option UserObj → JsVal
  | none => .undef
  | some u => u.email

/-- Request body of `POST /api/waste`: `{type, volume, location, user}`. -/
structure WasteReq where
  type : JsVal
  volume : JsVal
  location : JsVal
  user : Option UserObj
deriving DecidableEq, Repr

/-- Request body of `POST /api/events`:
`{title, description, location, date, user}`. -/
structure EventReq where
  title : JsVal
  description : JsVal
  location : JsVal
  date : JsVal
  user : Option UserObj
deriving DecidableEq, Repr

/-- An HTTP response of the backend: 200 with a JSON body, 401 with
`{error}` from the `user?.uid` guard, or 500 with `{error: err.message}`
from the catch branch. -/
inductive ApiResp (α : Type) where
  | ok (body : α)
  | unauthorized (error : String)
  | serverError (error : String)
deriving DecidableEq, Repr

/-- The HTTP status code attached to a response. -/
def ApiResp.status : ApiResp α → Nat
  | .ok _ => 200
  | .unauthorized _ => 401
  | .serverError _ => 500

/-- The `{message, id}` body of a successful write. -/
structure WriteOk where
  message : String
  id : Nat
deriving DecidableEq, Repr

/-- The backend's view of the document store: the two collections it
writes to (each a list of identifier/document pairs, in append order) and
the store's identifier allocator, modelled as a counter.  The hosted store
allocates opaque fresh identifiers; the counter realises freshness. -/
structure Store where
  wasteEntries : List (Nat × WasteDoc)
  events : List (Nat × EventDoc)
  nextId : Nat
deriving DecidableEq, Repr

/-- The empty store. -/
def Store.empty : Store := ⟨[], [], 0⟩

/-- All identifiers the store has issued so far. -/
def Store.issuedIds (st : Store) : List Nat :=
  List.map Prod.fst st.wasteEntries ++ List.map Prod.fst st.events

/-- Well-formedness of a store: every issued identifier is below the
allocator counter (true of every store reachable from `Store.empty`). -/
def Store.wf (st : Store) : Prop :=
  ∀ i ∈ st.issuedIds, i < st.nextId

/-- The documents of the waste-entry collection, without identifiers, in
store order — what the stats handler scans. -/
def Store.wasteDocs (st : Store) : List WasteDoc :=
  List.map Prod.snd st.wasteEntries

/-- A per-request behaviour of the store client: `none` means the store
operation succeeds, `some msg` means it throws an error whose `message` is
`msg` (caught by the handler's catch branch). -/
abbrev StoreErr : Type := Option String

/-- The `POST /api/waste` handler: destructure the body, return 401 if
`user?.uid` is falsy, otherwise append one document (with
`submitterEmail = user.email || null` and the server timestamp) to the
waste-entry collection and answer `{message, id}`; a store failure is
caught and answered as 500 `{error}`. -/
def createWasteEntry (st : Store) (req : WasteReq) (now : String)
    (err : StoreErr) : Store × ApiResp WriteOk :=
  if !(userUid req.user).truthy then
    (st, .unauthorized "Unauthorized")
  else
    match err with
    | some msg => (st, .serverError msg)
    | none =>
      let doc : WasteDoc :=
        { type := req.type
          volume := req.volume
          location := req.location
          submitterId := userUid req.user
          submitterEmail :=
            if (userEmail req.user).truthy then userEmail req.user
            else JsVal.null
          createdAt := now }
      ({ st with
          wasteEntries := st.wasteEntries ++ [(st.nextId, doc)]
          nextId := st.nextId + 1 },
        .ok ⟨"Waste entry added", st.nextId⟩)

/-- The `POST /api/events` handler, with the same authorization guard and
error handling as the waste handler, appending to the events collection. -/
def createEvent (st : Store) (req : EventReq) (now : String)
    (err : StoreErr) : Store × ApiResp WriteOk :=
  if !(userUid req.user).truthy then
    (st, .unauthorized "Unauthorized")
  else
    match err with
    | some msg => (st, .serverError msg)
    | none =>
      let doc : EventDoc :=
        { title := req.title
          description := req.description
          location := req.location
          date := req.date
          creatorId := userUid req.user
          creatorEmail :=
            if (userEmail req.user).truthy then userEmail req.user
            else JsVal.null
          createdAt := now }
      ({ st with
          events := st.events ++ [(st.nextId, doc)]
          nextId := st.nextId + 1 },
        .ok ⟨"Event created", st.nextId⟩)

/-- The `GET /api/waste` handler: list the full waste-entry collection
(documents with identifiers attached); a store failure is answered as
500 `{error}`. -/
def listWasteEntries (st : Store) (err : StoreErr) :
    ApiResp (List (Nat × WasteDoc)) :=
  match err with
  | some msg => .serverError msg
  | none => .ok st.wasteEntries

/-- The `GET /api/events` handler. -/
def listEvents (st : Store) (err : StoreErr) :
    ApiResp (List (Nat × EventDoc)) :=
  match err with
  | some msg => .serverError msg
  | none => .ok st.events

/-- The `GET /api/stats` handler: scan the waste-entry collection and
return the aggregation fold's summary; a store read failure is answered as
500 `{error}`. -/
def getStats (st : Store) (err : StoreErr) : ApiResp StatsSummary :=
  match err with
  | some msg => .serverError msg
  | none => .ok (computeStats st.wasteDocs)

/-- A sequence of waste-entry creations (each request paired with the
server time of its call), applied in order with a succeeding store. -/
def applyCreations (st : Store) (reqs : List (WasteReq × String)) : Store :=
  reqs.foldl (fun s rc => (createWasteEntry s rc.1 rc.2 none).1) st

/-- The document the waste handler builds from an (authorized) request and
its server time. -/
def reqDoc (rc : WasteReq × String) : WasteDoc :=
  { type := rc.1.type
    volume := rc.1.volume
    location := rc.1.location
    submitterId := userUid rc.1.user
    submitterEmail :=
      if (userEmail rc.1.user).truthy then userEmail rc.1.user
      else JsVal.null
    createdAt := rc.2 }

/-- The `totalsByType` grouping key exactly as the specification words it:
`t = entry.type` if present (the field exists) else the literal string
`"Unknown"`.  Written from the spec, to be compared with the code's
`typeKey`. -/
def specTypeKey (e : WasteDoc) : String :=
  if e.type = JsVal.undef then "Unknown" else e.type.toKey

/-- The `totalsByUser` grouping key exactly as the specification words it:
`u = entry.submitterId` if present else the literal string `"unknown"`. -/
def specUserKey (e : WasteDoc) : String :=
  if e.submitterId = JsVal.undef then "unknown" else e.submitterId.toKey

/-- The aggregation fold exactly as the specification words it: start from
`totalEntries = 0` and empty maps; for each entry increment
`totalEntries`, `totalsByType[specTypeKey]` and `totalsByUser[specUserKey]`.
Written from the spec, to be compared with `computeStats`. -/
def computeStatsSpec (entries : List WasteDoc) : StatsSummary :=
  entries.foldl
    (fun acc e =>
      { totalEntries := acc.totalEntries + 1
        totalsByType := acc.totalsByType.bump (specTypeKey e)
        totalsByUser := acc.totalsByUser.bump (specUserKey e) })
    ⟨0, ([] : ObjMap), ([] : ObjMap)⟩

/-- The `totalsByType` grouping key as the amended claim words it:
`t = entry.type` if present and truthy, else `"Unknown"`. -/
def amendedTypeKey (e : WasteDoc) : String :=
  if e.type.truthy then e.type.toKey else "Unknown"

/-- The `totalsByUser` grouping key as the amended claim words it:
`u = entry.submitterId` if present and truthy, else `"unknown"`. -/
def amendedUserKey (e : WasteDoc) : String :=
  if e.submitterId.truthy then e.submitterId.toKey else "unknown"

/-- The aggregation fold as the amended claim words it. -/
def computeStatsAmendedSpec (entries : List WasteDoc) : StatsSummary :=
  entries.foldl
    (fun acc e =>
      { totalEntries := acc.totalEntries + 1
        totalsByType := acc.totalsByType.bump (amendedTypeKey e)
        totalsByUser := acc.totalsByUser.bump (amendedUserKey e) })
    ⟨0, ([] : ObjMap), ([] : ObjMap)⟩

/-! ### Helper lemmas about the counter maps and the aggregation fold -/

theorem sumVals_bump (m : ObjMap) (k : String) :
    (m.bump k).sumVals = m.sumVals + 1 := by
  induction m with
  | nil => simp [ObjMap.bump, ObjMap.sumVals]
  | cons p rest ih =>
    obtain ⟨k₀, v⟩ := p
    by_cases h : k₀ = k
    · simp [ObjMap.bump, ObjMap.sumVals, h]
      omega
    · simp only [ObjMap.bump, if_neg h]
      simp [ObjMap.sumVals] at ih ⊢
      omega

theorem get_bump (m : ObjMap) (k k₁ : String) :
    (m.bump k).get k₁ = m.get k₁ + (if k = k₁ then 1 else 0) := by
  induction m with
  | nil =>
    by_cases h : k = k₁ <;> simp [ObjMap.bump, ObjMap.get, h]
  | cons p rest ih =>
    obtain ⟨k₀, v⟩ := p
    by_cases h : k₀ = k
    · subst h
      by_cases h₁ : k₀ = k₁ <;> simp [ObjMap.bump, ObjMap.get, h₁]
    · by_cases h₁ : k₀ = k₁
      · subst h₁
        have hne : ¬ k = k₀ := fun hk => h hk.symm
        simp [ObjMap.bump, ObjMap.get, h, hne]
      · simp [ObjMap.bump, ObjMap.get, h, h₁, ih]

theorem hasKey_bump (m : ObjMap) (k k₁ : String) :
    (m.bump k).hasKey k₁ = (m.hasKey k₁ || (k == k₁)) := by
  induction m with
  | nil => simp [ObjMap.bump, ObjMap.hasKey]
  | cons p rest ih =>
    obtain ⟨k₀, v⟩ := p
    by_cases h : k₀ = k
    · subst h
      by_cases h₁ : k₀ = k₁ <;>
        simp [ObjMap.bump, ObjMap.hasKey, h₁]
    · simp only [ObjMap.bump, if_neg h]
      simp [ObjMap.hasKey] at ih ⊢
      simp [ih, Bool.or_assoc]

theorem foldl_statsStep_totalEntries (es : List WasteDoc)
    (acc : StatsSummary) :
    (es.foldl statsStep acc).totalEntries = acc.totalEntries + es.length := by
  induction es generalizing acc with
  | nil => simp
  | cons e rest ih =>
    simp [List.foldl, ih, statsStep]
    omega

theorem foldl_statsStep_type_sum (es : List WasteDoc)
    (acc : StatsSummary) :
    (es.foldl statsStep acc).totalsByType.sumVals
      = acc.totalsByType.sumVals + es.length := by
  induction es generalizing acc with
  | nil => simp
  | cons e rest ih =>
    simp [List.foldl, ih, statsStep, sumVals_bump]
    omega

theorem foldl_statsStep_user_sum (es : List WasteDoc)
    (acc : StatsSummary) :
    (es.foldl statsStep acc).totalsByUser.sumVals
      = acc.totalsByUser.sumVals + es.length := by
  induction es generalizing acc with
  | nil => simp
  | cons e rest ih =>
    simp [List.foldl, ih, statsStep, sumVals_bump]
    omega

theorem foldl_statsStep_type_get (es : List WasteDoc)
    (acc : StatsSummary) (k : String) :
    (es.foldl statsStep acc).totalsByType.get k
      = acc.totalsByType.get k + (es.map typeKey).count k := by
  induction es generalizing acc with
  | nil => simp
  | cons e rest ih =>
    simp [List.foldl, ih, statsStep, get_bump, List.count_cons]
    by_cases h : typeKey e = k <;> simp [h] <;> omega

theorem foldl_statsStep_user_get (es : List WasteDoc)
    (acc : StatsSummary) (k : String) :
    (es.foldl statsStep acc).totalsByUser.get k
      = acc.totalsByUser.get k + (es.map userKey).count k := by
  induction es generalizing acc with
  | nil => simp
  | cons e rest ih =>
    simp [List.foldl, ih, statsStep, get_bump, List.count_cons]
    by_cases h : userKey e = k <;> simp [h] <;> omega

theorem foldl_statsStep_user_hasKey (es : List WasteDoc)
    (acc : StatsSummary) (k : String) :
    (es.foldl statsStep acc).totalsByUser.hasKey k
      = (acc.totalsByUser.hasKey k || (es.map userKey).any (fun s => s == k)) := by
  induction es generalizing acc with
  | nil => simp
  | cons e rest ih =>
    simp [List.foldl, ih, statsStep, hasKey_bump, Bool.or_assoc]

theorem computeStats_user_hasKey (es : List WasteDoc) (k : String) :
    (computeStats es).totalsByUser.hasKey k
      = (es.map userKey).any (fun s => s == k) := by
  simpa [computeStats, ObjMap.hasKey] using
    foldl_statsStep_user_hasKey es ⟨0, [], []⟩ k

theorem computeStats_totalEntries (es : List WasteDoc) :
    (computeStats es).totalEntries = es.length := by
  simpa [computeStats] using foldl_statsStep_totalEntries es ⟨0, [], []⟩

theorem computeStats_type_get (es : List WasteDoc) (k : String) :
    (computeStats es).totalsByType.get k = (es.map typeKey).count k := by
  simpa [computeStats, ObjMap.get] using
    foldl_statsStep_type_get es ⟨0, [], []⟩ k

theorem computeStats_user_get (es : List WasteDoc) (k : String) :
    (computeStats es).totalsByUser.get k = (es.map userKey).count k := by
  simpa [computeStats, ObjMap.get] using
    foldl_statsStep_user_get es ⟨0, [], []⟩ k

theorem applyCreations_wasteEntries (st : Store)
    (reqs : List (WasteReq × String))
    (h : ∀ rc ∈ reqs, (userUid rc.1.user).truthy = true) :
    ∃ ids : List Nat, ids.length = reqs.length ∧
      (applyCreations st reqs).wasteEntries
        = st.wasteEntries ++ ids.zip (reqs.map reqDoc) := by
  induction reqs generalizing st with
  | nil => exact ⟨[], rfl, by simp [applyCreations]⟩
  | cons rc rest ih =>
    have hrc : (userUid rc.1.user).truthy = true := h rc (by simp)
    have hrest : ∀ x ∈ rest, (userUid x.1.user).truthy = true :=
      fun x hx => h x (by simp [hx])
    obtain ⟨ids, hlen, hst⟩ :=
      ih ((createWasteEntry st rc.1 rc.2 none).1) hrest
    refine ⟨st.nextId :: ids, by simp [hlen], ?_⟩
    have hstep : (createWasteEntry st rc.1 rc.2 none).1.wasteEntries
        = st.wasteEntries ++ [(st.nextId, reqDoc rc)] := by
      simp [createWasteEntry, hrc, reqDoc]
    calc (applyCreations st (rc :: rest)).wasteEntries
        = (applyCreations (createWasteEntry st rc.1 rc.2 none).1 rest).wasteEntries := by
          simp [applyCreations]
      _ = (createWasteEntry st rc.1 rc.2 none).1.wasteEntries
            ++ ids.zip (rest.map reqDoc) := hst
      _ = st.wasteEntries ++ (st.nextId :: ids).zip ((rc :: rest).map reqDoc) := by
          simp [hstep]

theorem applyCreations_wasteDocs (st : Store)
    (reqs : List (WasteReq × String))
    (h : ∀ rc ∈ reqs, (userUid rc.1.user).truthy = true) :
    (applyCreations st reqs).wasteDocs = st.wasteDocs ++ reqs.map reqDoc := by
  obtain ⟨ids, hlen, hst⟩ := applyCreations_wasteEntries st reqs h
  simp [Store.wasteDocs, hst]
  rw [List.map_snd_zip]
  exact le_of_eq (by simp [hlen])

/-! ### Claims -/

/-- C8: `computeStats` on an empty waste-entry collection returns exactly
`{totalEntries: 0, totalsByType: {}, totalsByUser: {}}`. -/
theorem computeStats_empty :
    computeStats [] =
      { totalEntries := 0
        totalsByType := ([] : ObjMap)
        totalsByUser := ([] : ObjMap) } := rfl

/-- C2 counterexample: the claim says the fold groups by `entry.type` when
the field is present, falling back to `"Unknown"` only when it is absent;
on an entry whose `type` is present but equal to the empty string the code
(`e.type || "Unknown"`) groups under `"Unknown"`, not under `""`, so the
code fold differs from the claimed fold at this input. -/
theorem computeStats_ne_spec_on_empty_string_type :
    computeStats
        [⟨JsVal.str "", JsVal.undef, JsVal.undef, JsVal.str "u1",
          JsVal.null, "t"⟩]
      ≠ computeStatsSpec
        [⟨JsVal.str "", JsVal.undef, JsVal.undef, JsVal.str "u1",
          JsVal.null, "t"⟩] := by decide

/-- C2 (amended): the fold starts from `totalEntries = 0` and empty maps
and, for each entry, increments `totalEntries`, `totalsByType[t]` with
`t = entry.type` if present and truthy else `"Unknown"`, and
`totalsByUser[u]` with `u = entry.submitterId` if present and truthy else
`"unknown"`; an entry with no `type` field is grouped under
`"Unknown"`. -/
theorem computeStats_eq_amended_spec (es : List WasteDoc) :
    computeStats es = computeStatsAmendedSpec es := rfl

/-- C1: for every snapshot of the waste-entry collection the summary
satisfies `sum(totalsByType.values()) = totalEntries =
sum(totalsByUser.values())`, and after any sequence of `N` successful
waste-entry creations from the empty store, `computeStats` of the
resulting collection has `totalEntries = N` and both sums equal to `N`. -/
theorem stats_sum_invariant_and_creation_count
    (es : List WasteDoc) (reqs : List (WasteReq × String))
    (h : ∀ rc ∈ reqs, (userUid rc.1.user).truthy = true) :
    ((computeStats es).totalsByType.sumVals = (computeStats es).totalEntries ∧
     (computeStats es).totalsByUser.sumVals = (computeStats es).totalEntries) ∧
    ((computeStats (applyCreations Store.empty reqs).wasteDocs).totalEntries
        = reqs.length ∧
     (computeStats (applyCreations Store.empty reqs).wasteDocs).totalsByType.sumVals
        = reqs.length ∧
     (computeStats (applyCreations Store.empty reqs).wasteDocs).totalsByUser.sumVals
        = reqs.length) := by
  have hts : ∀ l : List WasteDoc,
      (computeStats l).totalsByType.sumVals = l.length := by
    intro l
    simpa [computeStats, ObjMap.sumVals] using
      foldl_statsStep_type_sum l ⟨0, [], []⟩
  have hus : ∀ l : List WasteDoc,
      (computeStats l).totalsByUser.sumVals = l.length := by
    intro l
    simpa [computeStats, ObjMap.sumVals] using
      foldl_statsStep_user_sum l ⟨0, [], []⟩
  have hlen : (applyCreations Store.empty reqs).wasteDocs.length = reqs.length := by
    rw [applyCreations_wasteDocs Store.empty reqs h]
    simp [Store.empty, Store.wasteDocs]
  refine ⟨⟨?_, ?_⟩, ?_, ?_, ?_⟩
  · rw [hts, computeStats_totalEntries]
  · rw [hus, computeStats_totalEntries]
  · rw [computeStats_totalEntries, hlen]
  · rw [hts, hlen]
  · rw [hus, hlen]

/-- C1 witness: the invariant and creation-count statement at a concrete
snapshot and a concrete sequence of two authorized creations. -/
theorem stats_sum_invariant_and_creation_count_witness :
    ((computeStats [⟨JsVal.str "Plastic", JsVal.str "5 bags",
        JsVal.str "Zapote", JsVal.str "u1", JsVal.null, "t1"⟩]).totalsByType.sumVals
      = (computeStats [⟨JsVal.str "Plastic", JsVal.str "5 bags",
        JsVal.str "Zapote", JsVal.str "u1", JsVal.null, "t1"⟩]).totalEntries ∧
     (computeStats [⟨JsVal.str "Plastic", JsVal.str "5 bags",
        JsVal.str "Zapote", JsVal.str "u1", JsVal.null, "t1"⟩]).totalsByUser.sumVals
      = (computeStats [⟨JsVal.str "Plastic", JsVal.str "5 bags",
        JsVal.str "Zapote", JsVal.str "u1", JsVal.null, "t1"⟩]).totalEntries) ∧
    ((computeStats (applyCreations Store.empty
        [(⟨JsVal.str "Plastic", JsVal.str "5 bags", JsVal.str "Zapote",
            some ⟨JsVal.str "u1", JsVal.undef⟩⟩, "t1"),
         (⟨JsVal.str "Plastic", JsVal.str "2 kg", JsVal.str "Talon",
            some ⟨JsVal.str "u2", JsVal.undef⟩⟩, "t2")]).wasteDocs).totalEntries = 2 ∧
     (computeStats (applyCreations Store.empty
        [(⟨JsVal.str "Plastic", JsVal.str "5 bags", JsVal.str "Zapote",
            some ⟨JsVal.str "u1", JsVal.undef⟩⟩, "t1"),
         (⟨JsVal.str "Plastic", JsVal.str "2 kg", JsVal.str "Talon",
            some ⟨JsVal.str "u2", JsVal.undef⟩⟩, "t2")]).wasteDocs).totalsByType.sumVals = 2 ∧
     (computeStats (applyCreations Store.empty
        [(⟨JsVal.str "Plastic", JsVal.str "5 bags", JsVal.str "Zapote",
            some ⟨JsVal.str "u1", JsVal.undef⟩⟩, "t1"),
         (⟨JsVal.str "Plastic", JsVal.str "2 kg", JsVal.str "Talon",
            some ⟨JsVal.str "u2", JsVal.undef⟩⟩, "t2")]).wasteDocs).totalsByUser.sumVals = 2) :=
  stats_sum_invariant_and_creation_count
    [⟨JsVal.str "Plastic", JsVal.str "5 bags", JsVal.str "Zapote",
      JsVal.str "u1", JsVal.null, "t1"⟩]
    [(⟨JsVal.str "Plastic", JsVal.str "5 bags", JsVal.str "Zapote",
        some ⟨JsVal.str "u1", JsVal.undef⟩⟩, "t1"),
     (⟨JsVal.str "Plastic", JsVal.str "2 kg", JsVal.str "Talon",
        some ⟨JsVal.str "u2", JsVal.undef⟩⟩, "t2")]
    (by decide)

/-- C5: `computeStats` and `listWasteEntries` are deterministic reads —
repeating either with no intervening write returns an equal result — and
the stats fold is order-independent: permuting the scanned entries leaves
`totalEntries` and the `totalsByType` / `totalsByUser` maps (compared
pointwise as maps) unchanged. -/
theorem stats_reads_deterministic_and_order_independent
    (st : Store) (es es' : List WasteDoc) (h : es.Perm es') :
    getStats st none = getStats st none ∧
    listWasteEntries st none = listWasteEntries st none ∧
    (computeStats es).totalEntries = (computeStats es').totalEntries ∧
    (∀ k, (computeStats es).totalsByType.get k
        = (computeStats es').totalsByType.get k) ∧
    (∀ k, (computeStats es).totalsByUser.get k
        = (computeStats es').totalsByUser.get k) := by
  refine ⟨rfl, rfl, ?_, ?_, ?_⟩
  · rw [computeStats_totalEntries, computeStats_totalEntries, h.length_eq]
  · intro k
    rw [computeStats_type_get, computeStats_type_get]
    exact (h.map typeKey).count_eq k
  · intro k
    rw [computeStats_user_get, computeStats_user_get]
    exact (h.map userKey).count_eq k

/-- C5 witness: the determinism and order-independence statement at a
concrete store and a concrete transposition of two entries. -/
theorem stats_reads_deterministic_and_order_independent_witness :
    getStats Store.empty none = getStats Store.empty none ∧
    listWasteEntries Store.empty none = listWasteEntries Store.empty none ∧
    (computeStats [⟨JsVal.str "Paper", JsVal.undef, JsVal.undef,
        JsVal.str "u1", JsVal.null, "t1"⟩,
      ⟨JsVal.str "Glass", JsVal.undef, JsVal.undef,
        JsVal.str "u2", JsVal.null, "t2"⟩]).totalEntries
      = (computeStats [⟨JsVal.str "Glass", JsVal.undef, JsVal.undef,
        JsVal.str "u2", JsVal.null, "t2"⟩,
      ⟨JsVal.str "Paper", JsVal.undef, JsVal.undef,
        JsVal.str "u1", JsVal.null, "t1"⟩]).totalEntries ∧
    (∀ k, (computeStats [⟨JsVal.str "Paper", JsVal.undef, JsVal.undef,
        JsVal.str "u1", JsVal.null, "t1"⟩,
      ⟨JsVal.str "Glass", JsVal.undef, JsVal.undef,
        JsVal.str "u2", JsVal.null, "t2"⟩]).totalsByType.get k
      = (computeStats [⟨JsVal.str "Glass", JsVal.undef, JsVal.undef,
        JsVal.str "u2", JsVal.null, "t2"⟩,
      ⟨JsVal.str "Paper", JsVal.undef, JsVal.undef,
        JsVal.str "u1", JsVal.null, "t1"⟩]).totalsByType.get k) ∧
    (∀ k, (computeStats [⟨JsVal.str "Paper", JsVal.undef, JsVal.undef,
        JsVal.str "u1", JsVal.null, "t1"⟩,
      ⟨JsVal.str "Glass", JsVal.undef, JsVal.undef,
        JsVal.str "u2", JsVal.null, "t2"⟩]).totalsByUser.get k
      = (computeStats [⟨JsVal.str "Glass", JsVal.undef, JsVal.undef,
        JsVal.str "u2", JsVal.null, "t2"⟩,
      ⟨JsVal.str "Paper", JsVal.undef, JsVal.undef,
        JsVal.str "u1", JsVal.null, "t1"⟩]).totalsByUser.get k) :=
  stats_reads_deterministic_and_order_independent Store.empty
    [⟨JsVal.str "Paper", JsVal.undef, JsVal.undef,
        JsVal.str "u1", JsVal.null, "t1"⟩,
      ⟨JsVal.str "Glass", JsVal.undef, JsVal.undef,
        JsVal.str "u2", JsVal.null, "t2"⟩]
    [⟨JsVal.str "Glass", JsVal.undef, JsVal.undef,
        JsVal.str "u2", JsVal.null, "t2"⟩,
      ⟨JsVal.str "Paper", JsVal.undef, JsVal.undef,
        JsVal.str "u1", JsVal.null, "t1"⟩]
    (List.Perm.swap _ _ _)

/-- C9: in the aggregation fold the fallback keys trigger on any falsy
field value, not only an absent field: an entry whose `type` is present
but falsy (for example the empty string or `null`) is counted under
`"Unknown"` in `totalsByType`, and an entry whose `submitterId` is present
but falsy is counted under `"unknown"` in `totalsByUser`. -/
theorem falsy_fields_counted_under_fallback
    (pre post : List WasteDoc) (e : WasteDoc)
    (ht : e.type ≠ JsVal.undef) (htf : e.type.truthy = false)
    (hu : e.submitterId ≠ JsVal.undef) (huf : e.submitterId.truthy = false) :
    (computeStats (pre ++ e :: post)).totalsByType.get "Unknown"
        = (computeStats (pre ++ post)).totalsByType.get "Unknown" + 1 ∧
    (computeStats (pre ++ e :: post)).totalsByUser.get "unknown"
        = (computeStats (pre ++ post)).totalsByUser.get "unknown" + 1 := by
  have hk : typeKey e = "Unknown" := by simp [typeKey, htf]
  have hk' : userKey e = "unknown" := by simp [userKey, huf]
  constructor
  · rw [computeStats_type_get, computeStats_type_get]
    simp [List.count_append, List.count_cons, hk]
    omega
  · rw [computeStats_user_get, computeStats_user_get]
    simp [List.count_append, List.count_cons, hk']
    omega

/-- C9 witness: an entry whose `type` is the empty string and whose
`submitterId` is `null` is counted under both fallback keys. -/
theorem falsy_fields_counted_under_fallback_witness :
    (computeStats ([] ++ ⟨JsVal.str "", JsVal.undef, JsVal.undef,
        JsVal.null, JsVal.null, "t"⟩ :: [])).totalsByType.get "Unknown"
      = (computeStats ([] ++ [])).totalsByType.get "Unknown" + 1 ∧
    (computeStats ([] ++ ⟨JsVal.str "", JsVal.undef, JsVal.undef,
        JsVal.null, JsVal.null, "t"⟩ :: [])).totalsByUser.get "unknown"
      = (computeStats ([] ++ [])).totalsByUser.get "unknown" + 1 :=
  falsy_fields_counted_under_fallback [] []
    ⟨JsVal.str "", JsVal.undef, JsVal.undef, JsVal.null, JsVal.null, "t"⟩
    (by decide) (by decide) (by decide) (by decide)

/-- C3: when `user.uid` is absent from the request body, both
`createWasteEntry` and `createEvent` answer 401 Unauthorized and perform
no store write: the store is returned unchanged and listing either
collection before and after the call gives the same result. -/
theorem missing_uid_unauthorized_no_write
    (st : Store) (wr : WasteReq) (er : EventReq)
    (noww nowe : String) (errw erre : StoreErr)
    (hw : userUid wr.user = JsVal.undef)
    (he : userUid er.user = JsVal.undef) :
    createWasteEntry st wr noww errw = (st, .unauthorized "Unauthorized") ∧
    ((createWasteEntry st wr noww errw).2).status = 401 ∧
    createEvent st er nowe erre = (st, .unauthorized "Unauthorized") ∧
    ((createEvent st er nowe erre).2).status = 401 ∧
    listWasteEntries (createWasteEntry st wr noww errw).1 none
      = listWasteEntries st none ∧
    listEvents (createEvent st er nowe erre).1 none = listEvents st none := by
  have h1 : createWasteEntry st wr noww errw
      = (st, .unauthorized "Unauthorized") := by
    simp [createWasteEntry, hw, JsVal.truthy]
  have h2 : createEvent st er nowe erre
      = (st, .unauthorized "Unauthorized") := by
    simp [createEvent, he, JsVal.truthy]
  exact ⟨h1, by rw [h1]; rfl, h2, by rw [h2]; rfl, by rw [h1], by rw [h2]⟩

/-- Sample unauthorized waste request: the `user` field is absent. -/
def c3WasteReq : WasteReq :=
  ⟨JsVal.str "Plastic", JsVal.str "5 bags", JsVal.str "Zapote", none⟩

/-- Sample unauthorized event request: `user` is present but has no
`uid` field. -/
def c3EventReq : EventReq :=
  ⟨JsVal.str "Cleanup", JsVal.str "Beach day", JsVal.str "Talon",
    JsVal.str "2026-01-01", some ⟨JsVal.undef, JsVal.str "a@b.c"⟩⟩

/-- C3 witness: the unauthorized outcome at two concrete requests missing
`user.uid`, against the empty store. -/
theorem missing_uid_unauthorized_no_write_witness :
    createWasteEntry Store.empty c3WasteReq "t1" none
      = (Store.empty, .unauthorized "Unauthorized") ∧
    ((createWasteEntry Store.empty c3WasteReq "t1" none).2).status = 401 ∧
    createEvent Store.empty c3EventReq "t2" none
      = (Store.empty, .unauthorized "Unauthorized") ∧
    ((createEvent Store.empty c3EventReq "t2" none).2).status = 401 ∧
    listWasteEntries (createWasteEntry Store.empty c3WasteReq "t1" none).1 none
      = listWasteEntries Store.empty none ∧
    listEvents (createEvent Store.empty c3EventReq "t2" none).1 none
      = listEvents Store.empty none :=
  missing_uid_unauthorized_no_write Store.empty c3WasteReq c3EventReq
    "t1" "t2" none none rfl rfl

/-- C4: with a present (truthy) submitter id and a succeeding store, a
`createWasteEntry` call appends exactly one document to the waste-entry
collection (the events collection is untouched), answers 200 with a fresh
identifier not equal to any previously issued one, and a subsequent
listing is the old listing plus exactly that one entry, whose `type`,
`volume` and `location` match the submitted fields. -/
theorem create_waste_appends_one_fresh
    (st : Store) (req : WasteReq) (now : String)
    (hwf : st.wf) (h : (userUid req.user).truthy = true) :
    (createWasteEntry st req now none).1.wasteEntries
        = st.wasteEntries ++ [(st.nextId, reqDoc (req, now))] ∧
    (createWasteEntry st req now none).1.events = st.events ∧
    (createWasteEntry st req now none).2
        = .ok ⟨"Waste entry added", st.nextId⟩ ∧
    st.nextId ∉ st.issuedIds ∧
    listWasteEntries (createWasteEntry st req now none).1 none
        = .ok (st.wasteEntries ++ [(st.nextId, reqDoc (req, now))]) ∧
    (reqDoc (req, now)).type = req.type ∧
    (reqDoc (req, now)).volume = req.volume ∧
    (reqDoc (req, now)).location = req.location := by
  have happ : (createWasteEntry st req now none).1.wasteEntries
      = st.wasteEntries ++ [(st.nextId, reqDoc (req, now))] := by
    simp [createWasteEntry, h, reqDoc]
  refine ⟨happ, ?_, ?_, ?_, ?_, rfl, rfl, rfl⟩
  · simp [createWasteEntry, h]
  · simp [createWasteEntry, h]
  · intro hmem
    exact lt_irrefl _ (hwf _ hmem)
  · rw [listWasteEntries, happ]

/-- Sample authorized waste request for the C4 witness. -/
def c4Req : WasteReq :=
  ⟨JsVal.str "Plastic", JsVal.str "5 bags", JsVal.str "Zapote",
    some ⟨JsVal.str "u1", JsVal.str "u1@mail.com"⟩⟩

/-- C4 witness: the append/freshness statement at the empty store and a
concrete authorized request. -/
theorem create_waste_appends_one_fresh_witness :
    (createWasteEntry Store.empty c4Req "t0" none).1.wasteEntries
        = Store.empty.wasteEntries
          ++ [(Store.empty.nextId, reqDoc (c4Req, "t0"))] ∧
    (createWasteEntry Store.empty c4Req "t0" none).1.events
        = Store.empty.events ∧
    (createWasteEntry Store.empty c4Req "t0" none).2
        = .ok ⟨"Waste entry added", Store.empty.nextId⟩ ∧
    Store.empty.nextId ∉ Store.empty.issuedIds ∧
    listWasteEntries (createWasteEntry Store.empty c4Req "t0" none).1 none
        = .ok (Store.empty.wasteEntries
          ++ [(Store.empty.nextId, reqDoc (c4Req, "t0"))]) ∧
    (reqDoc (c4Req, "t0")).type = c4Req.type ∧
    (reqDoc (c4Req, "t0")).volume = c4Req.volume ∧
    (reqDoc (c4Req, "t0")).location = c4Req.location :=
  create_waste_appends_one_fresh Store.empty c4Req "t0"
    (by simp [Store.wf, Store.empty, Store.issuedIds]) (by decide)

/-- C6: a store failure during a request is caught at the request boundary
and answered as a 500 response whose JSON body carries the error message;
the same conversion applies to the stats read, both writes and both
lists (the model performs a single attempt, so no retry occurs). -/
theorem store_failure_surfaces_500
    (st : Store) (wr : WasteReq) (er : EventReq)
    (noww nowe msg : String)
    (hw : (userUid wr.user).truthy = true)
    (he : (userUid er.user).truthy = true) :
    getStats st (some msg) = .serverError msg ∧
    (getStats st (some msg)).status = 500 ∧
    createWasteEntry st wr noww (some msg) = (st, .serverError msg) ∧
    createEvent st er nowe (some msg) = (st, .serverError msg) ∧
    listWasteEntries st (some msg) = .serverError msg ∧
    listEvents st (some msg) = .serverError msg := by
  refine ⟨rfl, rfl, ?_, ?_, rfl, rfl⟩
  · simp [createWasteEntry, hw]
  · simp [createEvent, he]

/-- Sample authorized event request for the C6 witness. -/
def c6EventReq : EventReq :=
  ⟨JsVal.str "Cleanup", JsVal.str "Beach day", JsVal.str "Talon",
    JsVal.str "2026-01-01", some ⟨JsVal.str "u2", JsVal.undef⟩⟩

/-- C6 witness: the 500 conversion at the empty store, a concrete error
message and concrete authorized requests. -/
theorem store_failure_surfaces_500_witness :
    getStats Store.empty (some "boom") = .serverError "boom" ∧
    (getStats Store.empty (some "boom")).status = 500 ∧
    createWasteEntry Store.empty c4Req "t0" (some "boom")
      = (Store.empty, .serverError "boom") ∧
    createEvent Store.empty c6EventReq "t1" (some "boom")
      = (Store.empty, .serverError "boom") ∧
    listWasteEntries Store.empty (some "boom") = .serverError "boom" ∧
    listEvents Store.empty (some "boom") = .serverError "boom" :=
  store_failure_surfaces_500 Store.empty c4Req c6EventReq "t0" "t1" "boom"
    (by decide) (by decide)

/-- C7: `createWasteEntry` validates nothing about `type`, `volume` or
`location`: for every choice of those values (malformed, empty or absent),
an authorized call answers 200 and the appended document stores the
values exactly as submitted. -/
theorem no_field_validation_stores_as_is
    (st : Store) (ty vo lo : JsVal) (user : Option UserObj)
    (now : String) (h : (userUid user).truthy = true) :
    ((createWasteEntry st ⟨ty, vo, lo, user⟩ now none).2).status = 200 ∧
    (createWasteEntry st ⟨ty, vo, lo, user⟩ now none).1.wasteEntries
        = st.wasteEntries
          ++ [(st.nextId, reqDoc (⟨ty, vo, lo, user⟩, now))] ∧
    (reqDoc ((⟨ty, vo, lo, user⟩ : WasteReq), now)).type = ty ∧
    (reqDoc ((⟨ty, vo, lo, user⟩ : WasteReq), now)).volume = vo ∧
    (reqDoc ((⟨ty, vo, lo, user⟩ : WasteReq), now)).location = lo := by
  refine ⟨?_, ?_, rfl, rfl, rfl⟩
  · simp [createWasteEntry, h, ApiResp.status]
  · simp [createWasteEntry, h, reqDoc]

/-- C7 witness: an authorized request whose `type` is `null`, whose
`volume` is the empty string and whose `location` is absent is stored
as-is and answered 200. -/
theorem no_field_validation_stores_as_is_witness :
    ((createWasteEntry Store.empty
        ⟨JsVal.null, JsVal.str "", JsVal.undef,
          some ⟨JsVal.str "u1", JsVal.undef⟩⟩ "t0" none).2).status = 200 ∧
    (createWasteEntry Store.empty
        ⟨JsVal.null, JsVal.str "", JsVal.undef,
          some ⟨JsVal.str "u1", JsVal.undef⟩⟩ "t0" none).1.wasteEntries
        = Store.empty.wasteEntries
          ++ [(Store.empty.nextId,
               reqDoc (⟨JsVal.null, JsVal.str "", JsVal.undef,
                 some ⟨JsVal.str "u1", JsVal.undef⟩⟩, "t0"))] ∧
    (reqDoc ((⟨JsVal.null, JsVal.str "", JsVal.undef,
        some ⟨JsVal.str "u1", JsVal.undef⟩⟩ : WasteReq), "t0")).type
        = JsVal.null ∧
    (reqDoc ((⟨JsVal.null, JsVal.str "", JsVal.undef,
        some ⟨JsVal.str "u1", JsVal.undef⟩⟩ : WasteReq), "t0")).volume
        = JsVal.str "" ∧
    (reqDoc ((⟨JsVal.null, JsVal.str "", JsVal.undef,
        some ⟨JsVal.str "u1", JsVal.undef⟩⟩ : WasteReq), "t0")).location
        = JsVal.undef :=
  no_field_validation_stores_as_is Store.empty JsVal.null (JsVal.str "")
    JsVal.undef (some ⟨JsVal.str "u1", JsVal.undef⟩) "t0" (by decide)

/-- Request whose authenticated uid is the literal string `"unknown"`,
used to refute C10 as stated. -/
def c10Req : WasteReq :=
  ⟨JsVal.str "Plastic", JsVal.undef, JsVal.undef,
    some ⟨JsVal.str "unknown", JsVal.undef⟩⟩

/-- C10 counterexample: a collection populated solely by one successful
`createWasteEntry` call (the call answers 200) whose authenticated uid is
the literal string `"unknown"` makes `totalsByUser` contain the key
`"unknown"`, so the claim that the key never occurs is false as stated. -/
theorem totalsByUser_unknown_key_counterexample :
    ((createWasteEntry Store.empty c10Req "t0" none).2).status = 200 ∧
    ((computeStats (applyCreations Store.empty
        [(c10Req, "t0")]).wasteDocs).totalsByUser).hasKey "unknown" = true := by
  constructor
  · decide
  · decide

/-- C10 (amended): every document appended by a successful
`createWasteEntry` call has `submitterId` equal to the request's
(necessarily truthy) `user.uid` and `submitterEmail` equal to the given
email or the literal `null`; and for every collection populated solely by
successful `createWasteEntry` calls none of whose uids equals the literal
string `"unknown"`, `computeStats().totalsByUser` does not contain the
key `"unknown"`. -/
theorem appended_docs_attribute_submitter
    (st : Store) (req : WasteReq) (now : String)
    (reqs : List (WasteReq × String))
    (h1 : (userUid req.user).truthy = true)
    (h2 : ∀ rc ∈ reqs, (userUid rc.1.user).truthy = true)
    (h3 : ∀ rc ∈ reqs, (userUid rc.1.user).toKey ≠ "unknown") :
    ((createWasteEntry st req now none).1.wasteEntries
        = st.wasteEntries ++ [(st.nextId, reqDoc (req, now))] ∧
     (reqDoc (req, now)).submitterId = userUid req.user ∧
     (reqDoc (req, now)).submitterId.truthy = true ∧
     ((reqDoc (req, now)).submitterEmail = userEmail req.user ∨
      (reqDoc (req, now)).submitterEmail = JsVal.null)) ∧
    ((computeStats (applyCreations Store.empty
        reqs).wasteDocs).totalsByUser).hasKey "unknown" = false := by
  constructor
  · refine ⟨by simp [createWasteEntry, h1, reqDoc], rfl, h1, ?_⟩
    by_cases he : (userEmail req.user).truthy
    · exact Or.inl (by simp [reqDoc, he])
    · exact Or.inr (by simp [reqDoc, he])
  · rw [applyCreations_wasteDocs Store.empty reqs h2]
    have hempty : Store.empty.wasteDocs = [] := rfl
    rw [hempty, List.nil_append, computeStats_user_hasKey, List.map_map]
    rw [List.any_eq_false]
    intro s hs
    obtain ⟨rc, hrc, rfl⟩ := List.mem_map.mp hs
    have htr := h2 rc hrc
    have hne := h3 rc hrc
    simp [Function.comp, userKey, reqDoc, htr]
    exact hne

/-- C10 witness: the amended statement at the empty store, a concrete
authorized request, and a one-element creation sequence whose uid is not
the string `"unknown"`. -/
theorem appended_docs_attribute_submitter_witness :
    ((createWasteEntry Store.empty c4Req "t0" none).1.wasteEntries
        = Store.empty.wasteEntries
          ++ [(Store.empty.nextId, reqDoc (c4Req, "t0"))] ∧
     (reqDoc (c4Req, "t0")).submitterId = userUid c4Req.user ∧
     (reqDoc (c4Req, "t0")).submitterId.truthy = true ∧
     ((reqDoc (c4Req, "t0")).submitterEmail = userEmail c4Req.user ∨
      (reqDoc (c4Req, "t0")).submitterEmail = JsVal.null)) ∧
    ((computeStats (applyCreations Store.empty
        [(⟨JsVal.str "Glass", JsVal.undef, JsVal.undef,
            some ⟨JsVal.str "u2", JsVal.undef⟩⟩, "t1")]).wasteDocs).totalsByUser).hasKey
        "unknown" = false :=
  appended_docs_attribute_submitter Store.empty c4Req "t0"
    [(⟨JsVal.str "Glass", JsVal.undef, JsVal.undef,
        some ⟨JsVal.str "u2", JsVal.undef⟩⟩, "t1")]
    (by decide) (by decide) (by decide)

end CleanupTracker
